import Mathlib

/-!
Shallow embedding of the `validating-base` runtime validation engine
(`src/validating_base/base.py`, `decorators.py`, `decorators_internal.py`)
and proofs about the properties of its call-interception wrapper,
metaclass, and structural self-check.
-/

set_option autoImplicit false

namespace ValidatingBase

/-- Python exception kinds raised by the engine, the `typeguard`
argument/return checkers, and the abstract-class machinery.
Each carries its message. -/
inductive PyErr where
  | typeCheckError (msg : String)
  | typeError (msg : String)
  | notImplementedError (msg : String)
  | attributeError (msg : String)
  | deprecationWarning (msg : String)
  | valueError (msg : String)
deriving DecidableEq, Repr

/-- Observable execution events of one pass through the call-interception
wrapper: the typeguard argument check, the `validate_<name>` prerun
validator call, the original method body, and the return-type check.
Each call event records the arguments it was invoked with. -/
inductive Event (α β : Type) where
  | argCheck (a : α)
  | prerunCall (a : α)
  | bodyCall (a : α)
  | retCheck (b : β)
deriving DecidableEq, Repr

/-- `base.py` lines 29-67, `validated_decorated(validation_method)(function)`:
the wrapper built by `__getattribute__` around each validated method.
In source order (lines 56-61) it runs `check_argument_types`, then
`validation_method(*args, **kwargs)`, then `function(*args, **kwargs)`,
then `check_return_type`, short-circuiting on the first raised exception.
The typeguard checkers and the bodies are passed in as functions of the
bound arguments; the trace records which steps actually executed. -/
def validated_decorated {α β : Type}
    (check_argument_types : α → Except PyErr Unit)
    (validation_method : α → Except PyErr Unit)
    (function : α → Except PyErr β)
    (check_return_type : β → Except PyErr Unit)
    (args : α) : List (Event α β) × Except PyErr β :=
  match check_argument_types args with
  | .error e => ([.argCheck args], .error e)
  | .ok _ =>
    match validation_method args with
    | .error e => ([.argCheck args, .prerunCall args], .error e)
    | .ok _ =>
      match function args with
      | .error e => ([.argCheck args, .prerunCall args, .bodyCall args], .error e)
      | .ok res =>
        match check_return_type res with
        | .error e =>
            ([.argCheck args, .prerunCall args, .bodyCall args, .retCheck res], .error e)
        | .ok _ =>
            ([.argCheck args, .prerunCall args, .bodyCall args, .retCheck res], .ok res)

/-- `decorators_internal.py` lines 30-46, `prerun_validated(validation_method)(function)`:
calls the validation method with exactly the caller-supplied arguments,
then the function with the same arguments; an exception from the
validator short-circuits, uncaught. -/
def prerun_validated {α β : Type}
    (validation_method : α → Except PyErr Unit)
    (function : α → Except PyErr β)
    (args : α) : List (Event α β) × Except PyErr β :=
  match validation_method args with
  | .error e => ([.prerunCall args], .error e)
  | .ok _ =>
    match function args with
    | .error e => ([.prerunCall args, .bodyCall args], .error e)
    | .ok res => ([.prerunCall args, .bodyCall args], .ok res)

/-- `decorators_internal.py` lines 49-87, `type_validated(function)`:
checks argument types, runs the body, checks the return type.
No prerun validator is involved. -/
def type_validated {α β : Type}
    (check_argument_types : α → Except PyErr Unit)
    (function : α → Except PyErr β)
    (check_return_type : β → Except PyErr Unit)
    (args : α) : List (Event α β) × Except PyErr β :=
  match check_argument_types args with
  | .error e => ([.argCheck args], .error e)
  | .ok _ =>
    match function args with
    | .error e => ([.argCheck args, .bodyCall args], .error e)
    | .ok res =>
      match check_return_type res with
      | .error e => ([.argCheck args, .bodyCall args, .retCheck res], .error e)
      | .ok _ => ([.argCheck args, .bodyCall args, .retCheck res], .ok res)

/-- The validation-relevant metadata a method object can carry:
`__isruntimevalidated__` (set by `validated`), `__isabstractmethod__`
(set by `abc.abstractmethod` or by the metaclass), and the two flags set
by the `decorators.py` markers. Flags absent on an object read as `False`
(`getattr(value, flag, False)`), which the record defaults mirror. -/
structure MethodAttr where
  isruntimevalidated : Bool := false
  isabstractmethod : Bool := false
  is_runtime_prerun_validated : Bool := false
  is_runtime_type_validated : Bool := false
deriving DecidableEq, Repr

/-- A value stored under a name in a class body: a method (callable,
carrying flags), a plain non-callable value (such as `validate_action:
int = 1`), or `None`. -/
inductive Attr where
  | method (m : MethodAttr)
  | plain
  | pynone
deriving DecidableEq, Repr

/-- `callable(x)` for class-body values: only methods are callable. -/
def Attr.callable : Attr → Bool
  | .method _ => true
  | .plain => false
  | .pynone => false

/-- `getattr(x, "__isruntimevalidated__", False)`. -/
def Attr.isruntimevalidated : Attr → Bool
  | .method m => m.isruntimevalidated
  | _ => false

/-- `getattr(x, "__isabstractmethod__", False)`. -/
def Attr.isabstractmethod : Attr → Bool
  | .method m => m.isabstractmethod
  | _ => false

/-- `getattr(x, "__is_runtime_prerun_validated__", False)`. -/
def Attr.is_runtime_prerun_validated : Attr → Bool
  | .method m => m.is_runtime_prerun_validated
  | _ => false

/-- `getattr(x, "__is_runtime_type_validated__", False)`. -/
def Attr.is_runtime_type_validated : Attr → Bool
  | .method m => m.is_runtime_type_validated
  | _ => false

/-- Set `__isabstractmethod__ = True` on a method (`base.py` line 125,
and the effect of `abc.abstractmethod`). -/
def Attr.markAbstract : Attr → Attr
  | .method m => .method { m with isabstractmethod := true }
  | a => a

namespace Base

/-- `base.py` lines 70-73: `validated` sets `__isruntimevalidated__ = True`. -/
def validated (m : MethodAttr) : MethodAttr :=
  { m with isruntimevalidated := true }

end Base

namespace Decorators

/-- `decorators.py` lines 10-16: `validate_prerun` sets
`__is_runtime_prerun_validated__ = True`. -/
def validate_prerun (m : MethodAttr) : MethodAttr :=
  { m with is_runtime_prerun_validated := true }

/-- `decorators.py` lines 19-22: `validate_types` sets
`__is_runtime_type_validated__ = True`. -/
def validate_types (m : MethodAttr) : MethodAttr :=
  { m with is_runtime_type_validated := true }

/-- `decorators.py` lines 25-30: `validated` applies `validate_types`,
then `validate_prerun`, then sets `__isruntimevalidated__ = True`. -/
def validated (m : MethodAttr) : MethodAttr :=
  { validate_prerun (validate_types m) with isruntimevalidated := true }

end Decorators

/-- `abc.abstractmethod`: sets `__isabstractmethod__ = True`. -/
def abstractmethod (m : MethodAttr) : MethodAttr :=
  { m with isabstractmethod := true }

/-- The `attrs` dict of a freshly evaluated class body, as seen by
`ValidatingBaseClassMeta.__new__`: the optional class-level
`required_methods` / `validated_methods` list declarations
(`attrs.get(..., [])`) and the remaining named members in definition
order. -/
structure ClassNamespace where
  required_methods_decl : Option (List String) := none
  validated_methods_decl : Option (List String) := none
  members : List (String × Attr) := []
deriving DecidableEq, Repr

/-- `attrs.get(name)` over the non-list members of the class body. -/
def ClassNamespace.getMember (ns : ClassNamespace) (name : String) : Option Attr :=
  (ns.members.find? (fun p => p.1 = name)).map Prod.snd

/-- A class produced by `ValidatingBaseClassMeta.__new__`.
`validatingBaseClass` is the root `ValidatingBaseClass` itself (its body
declares `required_methods = []`, `validated_methods = []`,
`_self_validated = False`); every other class records its parent, its own
`__dict__` slots for the two name lists (`none` when the class body
neither declared the list nor had it inserted by the metaclass), its own
members after abstract-marking, and the `__abstractmethods__` set
computed by `ABCMeta`. -/
inductive PyClass where
  | validatingBaseClass : PyClass
  | mk (parent : PyClass)
       (validated_methods_slot : Option (List String))
       (required_methods_slot : Option (List String))
       (members : List (String × Attr))
       (abstracts : List String) : PyClass
deriving DecidableEq, Repr

/-- `cls.validated_methods`: ordinary attribute lookup, nearest class in
the MRO owning the slot wins; the root declares `[]`. -/
def PyClass.validated_methods : PyClass → List String
  | .validatingBaseClass => []
  | .mk parent slot _ _ _ => slot.getD parent.validated_methods

/-- `cls.required_methods`: same lookup rule; the root declares `[]`. -/
def PyClass.required_methods : PyClass → List String
  | .validatingBaseClass => []
  | .mk parent _ slot _ _ => slot.getD parent.required_methods

/-- `cls.__abstractmethods__` as computed by `ABCMeta` at construction. -/
def PyClass.abstractmethods : PyClass → List String
  | .validatingBaseClass => []
  | .mk _ _ _ _ a => a

/-- MRO attribute lookup for named members (methods and plain values):
the class's own `__dict__` first, then the ancestors. -/
def PyClass.getattrOpt : PyClass → String → Option Attr
  | .validatingBaseClass, _ => none
  | .mk parent _ _ members _, name =>
    match (members.find? (fun p => p.1 = name)).map Prod.snd with
    | some a => some a
    | none => parent.getattrOpt name

/-- One step of the member scan of `base.py` lines 102-110: append the
member name when its flag is set and the name is not already in the
list, recording that the list changed. -/
def collectMarkedStep (flagOf : Attr → Bool) (acc : List String × Bool)
    (p : String × Attr) : List String × Bool :=
  if flagOf p.2 = true ∧ p.1 ∉ acc.1 then (acc.1 ++ [p.1], true) else acc

/-- The member scan of `base.py` lines 102-110: starting from the
class-body list, append the name of every member whose `flagOf` flag is
set and whose name is not already present, remembering whether anything
was appended (the `*_changed` flag). -/
def collectMarked (flagOf : Attr → Bool) (members : List (String × Attr))
    (decl : List String) : List String × Bool :=
  members.foldl (collectMarkedStep flagOf) (decl, false)

/-- `base.py` lines 121-126: every callable member named in the merged
`required_methods` list gets `__isabstractmethod__ = True`. -/
def markRequiredAbstract (required : List String) (members : List (String × Attr)) :
    List (String × Attr) :=
  members.map
    (fun p => if required.contains p.1 && p.2.callable then (p.1, p.2.markAbstract) else p)

/-- `ABCMeta.__new__`: `__abstractmethods__` is the set of abstract own
members plus every parent abstract name whose attribute lookup on the
new class is still abstract (i.e. not overridden by a non-abstract
member). -/
def computeAbstracts (parent : PyClass) (members1 : List (String × Attr)) : List String :=
  let ownAbstract := (members1.filter (fun p => p.2.isabstractmethod)).map Prod.fst
  let inheritedAbstract := parent.abstractmethods.filter
    (fun n =>
      match (members1.find? (fun p => p.1 = n)).map Prod.snd with
      | some a => a.isabstractmethod
      | none => true)
  ownAbstract ++ inheritedAbstract.filter (fun n => !(ownAbstract.contains n))

namespace ValidatingBaseClassMeta

/-- `base.py` lines 84-148, `ValidatingBaseClassMeta.__new__`:
reads the class-body `required_methods` / `validated_methods` lists
(default `[]`), appends the names of members carrying
`__isruntimevalidated__` resp. `__isabstractmethod__` (lines 102-110,
`collectMarked`), writes each list into `attrs` only when it was
declared or changed (lines 112-116), marks every callable member named
in `required_methods` abstract (lines 121-126, `markRequiredAbstract`),
and hands the namespace to `ABCMeta.__new__` (`computeAbstracts`).
The `__init__` wrapping of lines 133-146 is modeled by `validate_init`
below. -/
def new (parent : PyClass) (ns : ClassNamespace) : PyClass :=
  let vstep := collectMarked Attr.isruntimevalidated ns.members
    (ns.validated_methods_decl.getD [])
  let rstep := collectMarked Attr.isabstractmethod ns.members
    (ns.required_methods_decl.getD [])
  let validated_slot : Option (List String) :=
    if ns.validated_methods_decl.isSome || vstep.2 then some vstep.1 else none
  let required_slot : Option (List String) :=
    if ns.required_methods_decl.isSome || rstep.2 then some rstep.1 else none
  let members1 := markRequiredAbstract rstep.1 ns.members
  .mk parent validated_slot required_slot members1 (computeAbstracts parent members1)

end ValidatingBaseClassMeta

/-- An instance of a validating class.  Its only validation-relevant
state is the instance `__dict__` entry for `_self_validated`, written by
`_validate_self` (`self._self_validated = True`, line 219). -/
structure Instance where
  selfValidatedSlot : Option Bool := none
deriving DecidableEq, Repr

/-- `self._self_validated`: the instance `__dict__` entry when present,
else the class attribute, which `__new__` lines 128-129 set to `False`
on every class. -/
def Instance.self_validated (inst : Instance) : Bool :=
  inst.selfValidatedSlot.getD false

/-- `getattr(self, name, None)`: `None` both when the attribute is
missing and when its stored value is `None`. -/
def getattrOrNone (c : PyClass) (name : String) : Option Attr :=
  match c.getattrOpt name with
  | some .pynone => none
  | r => r

/-- The warning text of `base.py` lines 195-198. -/
def warnMsg (name : String) : String :=
  "The " ++ name ++ " method is not implemented, but is " ++
    "specified in the validated_methods attribute. It will not be validated."

/-- `base.py` lines 186-189: the `required_methods` loop of
`_validate_self`.  `getattr(self, name, None)` not callable (including
missing) raises `TypeError`. -/
def requiredLoop (c : PyClass) : List String → Except PyErr Unit
  | [] => .ok ()
  | n :: rest =>
    match getattrOrNone c n with
    | some a => if a.callable then requiredLoop c rest
                else .error (.typeError ("The " ++ n ++ " attribute must be a callable."))
    | none => .error (.typeError ("The " ++ n ++ " attribute must be a callable."))

/-- `base.py` lines 191-217: the `validated_methods` loop of
`_validate_self`, modeled at the fidelity of CPython's list iterator:
the loop keeps an index `i` into the live list; `lst` is the current
list contents.  A missing (or `None`) method emits a warning and calls
`list.remove` (first occurrence of the value, `List.erase`) on the live
list, so the element that slides into the removed position is stepped
over when the index advances.  A present non-callable method raises
`TypeError`; a present callable method requires a callable
`validate_<name>` sibling, else `NotImplementedError` (missing) or
`TypeError` (non-callable).  Returns the final list contents and the
emitted warnings.  The extra `fuel` argument only bounds the structural
recursion: the index strictly increases and the list never grows, so
any `fuel ≥ lst.length - i` makes the fuel-exhaustion branch (which
returns the same value as normal loop exit) unreachable; the theorem
`validatedLoop_fuel_irrelevant` below proves the result independent of
any such fuel, and `validate_self` passes the full list length. -/
def validatedLoop (c : PyClass) : Nat → List String → Nat → List String →
    Except PyErr (List String × List String)
  | 0, lst, _, warns => .ok (lst, warns)
  | fuel + 1, lst, i, warns =>
    if h : i < lst.length then
      match getattrOrNone c (lst.get ⟨i, h⟩) with
      | none =>
          validatedLoop c fuel (lst.erase (lst.get ⟨i, h⟩)) (i + 1)
            (warns ++ [warnMsg (lst.get ⟨i, h⟩)])
      | some validated_method =>
          if !validated_method.callable then
            .error (.typeError ("The " ++ lst.get ⟨i, h⟩ ++ " attribute must be a callable."))
          else
            match getattrOrNone c ("validate_" ++ lst.get ⟨i, h⟩) with
            | none =>
                .error (.notImplementedError
                  ("The validate_" ++ lst.get ⟨i, h⟩ ++ " method must be defined for the " ++
                    lst.get ⟨i, h⟩ ++ " method."))
            | some validator_method =>
                if !validator_method.callable then
                  .error (.typeError ("The validate_" ++ lst.get ⟨i, h⟩ ++
                    " attribute must be a callable."))
                else
                  validatedLoop c fuel lst (i + 1) warns
    else .ok (lst, warns)

/-- `list.remove` mutates the list object in place; the mutated object
is the one found by the `self.validated_methods` lookup, i.e. the
nearest class in the MRO owning the slot.  `setValidatedList` rebuilds
the class chain with that slot replaced. -/
def PyClass.setValidatedList : PyClass → List String → PyClass
  | .validatingBaseClass, _ => .validatingBaseClass
  | .mk parent vslot rslot mem ab, l =>
    match vslot with
    | some _ => .mk parent (some l) rslot mem ab
    | none => .mk (parent.setValidatedList l) none rslot mem ab

/-- `base.py` lines 178-219, `ValidatingBaseClass._validate_self`:
the required-methods loop, then the validated-methods loop (with its
in-place removals), then `self._self_validated = True` (modeled by the
caller `validate_init`).  On success returns the emitted warnings and
the class with its `validated_methods` list updated in place. -/
def validate_self (c : PyClass) : Except PyErr (List String × PyClass) :=
  match requiredLoop c c.required_methods with
  | .error e => .error e
  | .ok _ =>
    match validatedLoop c c.validated_methods.length c.validated_methods 0 [] with
    | .error e => .error e
    | .ok (finalList, warns) => .ok (warns, c.setValidatedList finalList)

/-- The coarse events of one construction: the structural self-check
running, and the original `__init__` body running. -/
inductive LifeEvent where
  | selfCheck
  | initBody
deriving DecidableEq, Repr

/-- `base.py` lines 135-146, the `validate_init` wrapper installed on
`__init__`: if `self._self_validated` is falsy, run `_validate_self`
(which on success sets the instance flag), then delegate to the
original `__init__`.  An exception from the self-check propagates and
the original `__init__` body never runs. -/
def validate_init (c : PyClass) (inst : Instance) :
    List LifeEvent × Except PyErr (Instance × PyClass × List String) :=
  if inst.self_validated then ([.initBody], .ok (inst, c, []))
  else
    match validate_self c with
    | .error e => ([.selfCheck], .error e)
    | .ok (warns, c2) =>
        ([.selfCheck, .initBody], .ok ({ inst with selfValidatedSlot := some true }, c2, warns))

/-- `type.__call__` on an `ABCMeta` class: a non-empty
`__abstractmethods__` raises `TypeError` before `__init__` (and hence
the self-check) can run; otherwise a fresh instance (empty `__dict__`)
is passed to the wrapped `__init__`. -/
def instantiate (c : PyClass) :
    List LifeEvent × Except PyErr (Instance × PyClass × List String) :=
  if c.abstractmethods ≠ [] then
    ([], .error (.typeError "Cant instantiate abstract class"))
  else validate_init c { selfValidatedSlot := none }

/-- What an attribute read through `__getattribute__` hands back:
for the two specially shortcut names their raw values, for a validated
method the freshly built `validated_decorated` wrapper bound to its
`validate_<name>` validator, and the raw attribute otherwise. -/
inductive GetAttrResult where
  | rawAttr (a : Attr)
  | wrappedMethod (validatorName : String)
  | selfValidatedVal (b : Bool)
  | validatedMethodsVal (l : List String)
deriving DecidableEq, Repr

/-- `base.py` lines 221-231, `ValidatingBaseClass.__getattribute__`:
reads of `_self_validated` and `validated_methods` return the raw slot
values (these live outside the member map, so the model resolves them
first); any other missing name raises `AttributeError`; a callable
member whose name is in `validated_methods` on a self-validated
instance is returned wrapped by `validated_decorated` with the
`validate_<name>` validator (lines 229-231), whose own lookup raises
`AttributeError` when absent; everything else is returned raw. -/
def getattribute (c : PyClass) (inst : Instance) (name : String) :
    Except PyErr GetAttrResult :=
  if name = "_self_validated" then .ok (.selfValidatedVal inst.self_validated)
  else if name = "validated_methods" then .ok (.validatedMethodsVal c.validated_methods)
  else
    match c.getattrOpt name with
    | none => .error (.attributeError name)
    | some method =>
      if method.callable && inst.self_validated && c.validated_methods.contains name then
        match c.getattrOpt ("validate_" ++ name) with
        | none => .error (.attributeError ("validate_" ++ name))
        | some _ => .ok (.wrappedMethod ("validate_" ++ name))
      else .ok (.rawAttr method)

namespace Tests

/-- `tests/test_base.py` class `ActionExample(ValidatingBaseClass)`:
body defines `validate_action` (a plain method) and then `action`
decorated `@abstractmethod` over `@validated`. -/
def ActionExample : PyClass :=
  ValidatingBaseClassMeta.new .validatingBaseClass
    { members := [("validate_action", .method {}),
                  ("action", .method (abstractmethod (Base.validated {})))] }

/-- `tests/test_base.py` class `AdderExample(ActionExample)`: overrides
`action` with an undecorated concrete method. -/
def AdderExample : PyClass :=
  ValidatingBaseClassMeta.new ActionExample
    { members := [("action", .method {})] }

/-- `tests/test_base.py` class `InvalidExample(ActionExample)`: empty
body, so the abstract `action` is never overridden. -/
def InvalidExample : PyClass :=
  ValidatingBaseClassMeta.new ActionExample {}

/-- `tests/test_base.py` class `MissingValidator(ValidatingBaseClass)`:
a `@validated` method `action` with no `validate_action` anywhere. -/
def MissingValidator : PyClass :=
  ValidatingBaseClassMeta.new .validatingBaseClass
    { members := [("action", .method (Base.validated {}))] }

/-- `tests/test_base.py` class `NonCallableValidator`: a `@validated`
method `action` and a non-callable `validate_action: int = 1`. -/
def NonCallableValidator : PyClass :=
  ValidatingBaseClassMeta.new .validatingBaseClass
    { members := [("action", .method (Base.validated {})),
                  ("validate_action", .plain)] }

/-- `tests/test_base.py` class `DeprecatedRequired(ValidatingBaseClass)`:
declares the legacy `required_methods: list[str] = []` and nothing else. -/
def DeprecatedRequired : PyClass :=
  ValidatingBaseClassMeta.new .validatingBaseClass { required_methods_decl := some [] }

/-- `tests/test_base.py` class `DeprecatedValidated(ValidatingBaseClass)`:
declares the legacy `validated_methods: list[str] = []` and nothing else. -/
def DeprecatedValidated : PyClass :=
  ValidatingBaseClassMeta.new .validatingBaseClass { validated_methods_decl := some [] }

end Tests

/-- Python runtime values appearing in the adder scenario: ints,
strings, and lists. -/
inductive PyVal where
  | int (n : Int)
  | str (s : String)
  | pylist (xs : List PyVal)

/-- `isinstance(v, int)`. -/
def PyVal.isInt : PyVal → Bool
  | .int _ => true
  | _ => false

/-- Python `+` restricted to the values of the scenario: defined on two
ints, a `TypeError` otherwise (`int + str` is unsupported). -/
def pyAdd : PyVal → PyVal → Except PyErr PyVal
  | .int a, .int b => .ok (.int (a + b))
  | _, _ => .error (.typeError "unsupported operand type for +")

namespace Tests

/-- typeguard `check_argument_types` for the signature
`action(self, number_list: list[int])`: the bound argument must be a
list whose every item is an int, else `TypeCheckError` reporting that an
item is not an instance of int. -/
def check_number_list (v : PyVal) : Except PyErr Unit :=
  match v with
  | .pylist xs =>
      if xs.all PyVal.isInt then .ok ()
      else .error (.typeCheckError "item of number_list is not an instance of int")
  | _ => .error (.typeCheckError "number_list is not an instance of list")

/-- typeguard `check_return_type` for the `-> int` annotation. -/
def check_int_return (v : PyVal) : Except PyErr Unit :=
  match v with
  | .int _ => .ok ()
  | _ => .error (.typeCheckError "the return value is not an instance of int")

/-- `ActionExample.validate_action` body: empty, returns `None`. -/
def validate_action_body (v : PyVal) : Except PyErr Unit :=
  let _ := v
  .ok ()

/-- `AdderExample.action` body: `total = 0`, then `total = total +
number` over the elements, returning the total; iterating a non-list is
a `TypeError`. -/
def AdderExample.action : PyVal → Except PyErr PyVal
  | .pylist xs => xs.foldlM pyAdd (.int 0)
  | _ => .error (.typeError "object is not iterable")

/-- The callable an instance-attribute read of `adder.action` produces
after successful construction: the `validated_decorated` wrapper around
`AdderExample.action` with `validate_action` and the typeguard checks
of its annotations. -/
def adder_action_call (v : PyVal) : List (Event PyVal PyVal) × Except PyErr PyVal :=
  validated_decorated check_number_list validate_action_body AdderExample.action
    check_int_return v

end Tests

/-- A class decorating `foo` with `validated` (plus its validator), used
to probe inheritance of the validated-method set. -/
def FooBase : PyClass :=
  ValidatingBaseClassMeta.new .validatingBaseClass
    { members := [("foo", .method (Base.validated {})),
                  ("validate_foo", .method {})] }

/-- A subclass of `FooBase` decorating an additional method `bar`. -/
def BarSub : PyClass :=
  ValidatingBaseClassMeta.new FooBase
    { members := [("bar", .method (Base.validated {})),
                  ("validate_bar", .method {})] }

/-- A class whose only marked method carries just
`__is_runtime_prerun_validated__` (the `validate_prerun` marker). -/
def PrerunOnly : PyClass :=
  ValidatingBaseClassMeta.new .validatingBaseClass
    { members := [("action", .method (Decorators.validate_prerun {})),
                  ("validate_action", .method {})] }

/-- A class whose only marked method carries just
`__is_runtime_type_validated__` (the `validate_types` marker). -/
def TypesOnly : PyClass :=
  ValidatingBaseClassMeta.new .validatingBaseClass
    { members := [("action", .method (Decorators.validate_types {})),
                  ("validate_action", .method {})] }

/-- A class whose marked method carries all three flags (the combined
`validated` marker from `decorators.py`). -/
def BothMarked : PyClass :=
  ValidatingBaseClassMeta.new .validatingBaseClass
    { members := [("action", .method (Decorators.validated {})),
                  ("validate_action", .method {})] }

/-- A class listing two validated methods, neither of which is
implemented anywhere on the class. -/
def TwoMissing : PyClass :=
  ValidatingBaseClassMeta.new .validatingBaseClass
    { validated_methods_decl := some ["a", "b"] }

/-- A class using the legacy `required_methods` name list over a
callable member, to observe whether the list drives validation. -/
def DeclaredRequired : PyClass :=
  ValidatingBaseClassMeta.new .validatingBaseClass
    { required_methods_decl := some ["action"],
      members := [("action", .method {})] }

/-- The elements at even positions (0, 2, 4, ...) of a list: the ones
the `validated_methods` loop visits when every name is missing. -/
def evenIdxElems {γ : Type} : List γ → List γ
  | [] => []
  | [a] => [a]
  | a :: _ :: t => a :: evenIdxElems t

/-- The elements at odd positions (1, 3, 5, ...) of a list: the ones the
loop steps over after each in-place removal. -/
def oddIdxElems {γ : Type} : List γ → List γ
  | [] => []
  | [_] => []
  | _ :: b :: t => b :: oddIdxElems t

/-- A concrete call through the wrapper whose arguments fail both the
typeguard argument check (the argument is a string, not a list) and the
business-rule validator (which rejects everything). -/
def dualFailureCall : List (Event PyVal PyVal) × Except PyErr PyVal :=
  validated_decorated Tests.check_number_list
    (fun _ => .error (.valueError "business rule failed"))
    Tests.AdderExample.action Tests.check_int_return (.str "x")

/-! ## Theorems -/

/-- With any fuel at least the number of remaining iterations, the
validated-methods loop result does not depend on the fuel, so the
structural recursion bound in `validatedLoop` is semantically
invisible: the loop always terminates by its own exit condition. -/
theorem validatedLoop_fuel_irrelevant (c : PyClass) :
    ∀ (f1 f2 : Nat) (lst : List String) (i : Nat) (warns : List String),
      lst.length - i ≤ f1 → lst.length - i ≤ f2 →
      validatedLoop c f1 lst i warns = validatedLoop c f2 lst i warns := by
  intro f1
  induction f1 with
  | zero =>
    intro f2 lst i warns h1 _
    have hni : ¬ i < lst.length := by omega
    cases f2 with
    | zero => rfl
    | succ f2 => simp [validatedLoop, hni]
  | succ f1 ih =>
    intro f2 lst i warns h1 h2
    by_cases hi : i < lst.length
    · cases f2 with
      | zero => exfalso; omega
      | succ f2 =>
        have hmem : lst.get ⟨i, hi⟩ ∈ lst := lst.get_mem i hi
        have herase := List.length_erase_of_mem hmem
        simp only [validatedLoop, dif_pos hi]
        cases hga : getattrOrNone c (lst.get ⟨i, hi⟩) with
        | none =>
          exact ih f2 _ _ _ (by omega) (by omega)
        | some a =>
          cases hc : a.callable with
          | false => simp [hc]
          | true =>
            simp only [hc, Bool.not_true, Bool.false_eq_true, if_false]
            cases hga2 : getattrOrNone c ("validate_" ++ lst.get ⟨i, hi⟩) with
            | none => rfl
            | some v =>
              cases hv : v.callable with
              | false => simp [hv]
              | true =>
                simp only [hv, Bool.not_true, Bool.false_eq_true, if_false]
                exact ih f2 _ _ _ (by omega) (by omega)
    · cases f2 with
      | zero => simp [validatedLoop, hi]
      | succ f2 => simp [validatedLoop, hi]

/-- C2: the claim says any class declaring the legacy `required_methods`
or `validated_methods` list fails construction with a deprecation error
and that the lists perform no validation.  Evaluating the code at the
claimed failing inputs: `DeprecatedRequired` (with `required_methods =
[]`) and `DeprecatedValidated` (with `validated_methods = []`) both
construct successfully, with the self-check passing, the instance flag
set, and no error of any kind raised; moreover a declared
`required_methods` entry actively performs validation by making the
named member abstract. -/
theorem C2_deprecated_lists_accepted :
    instantiate Tests.DeprecatedRequired
      = ([.selfCheck, .initBody],
         .ok ({ selfValidatedSlot := some true }, Tests.DeprecatedRequired, []))
    ∧ instantiate Tests.DeprecatedValidated
      = ([.selfCheck, .initBody],
         .ok ({ selfValidatedSlot := some true }, Tests.DeprecatedValidated, []))
    ∧ DeclaredRequired.abstractmethods = ["action"] :=
  ⟨rfl, rfl, rfl⟩

/-- C6: the claim says the prerun-only and type-only markers each cause
their validation on every call.  In the code the metaclass consults only
`__isruntimevalidated__`, so a method carrying only
`__is_runtime_prerun_validated__` or only `__is_runtime_type_validated__`
is never entered in `validated_methods` and an attribute read on a
self-validated instance returns the raw, unwrapped method — no
validation of any kind runs on its calls.  Only the combined `validated`
marker produces a wrapped method. -/
theorem C6_constituent_markers_inert :
    PrerunOnly.validated_methods = []
    ∧ TypesOnly.validated_methods = []
    ∧ getattribute PrerunOnly { selfValidatedSlot := some true } "action"
      = .ok (.rawAttr (.method (Decorators.validate_prerun {})))
    ∧ getattribute TypesOnly { selfValidatedSlot := some true } "action"
      = .ok (.rawAttr (.method (Decorators.validate_types {})))
    ∧ BothMarked.validated_methods = ["action"]
    ∧ getattribute BothMarked { selfValidatedSlot := some true } "action"
      = .ok (.wrappedMethod "validate_action") :=
  ⟨rfl, rfl, rfl, rfl, rfl, rfl⟩

/-- C9: the adder scenario.  On a constructed `AdderExample` instance,
reading `action` yields the wrapper bound to `validate_action`; calling
it on `[1, 2, 3, 4, 5]` passes every check, runs the body, and returns
`15`; calling it on `["1", 2, 3, 4, 5]` raises the typeguard
`TypeCheckError` ("is not an instance of int") with the body never
invoked, so no summation occurs. -/
theorem C9_adder_scenario :
    getattribute Tests.AdderExample { selfValidatedSlot := some true } "action"
      = .ok (.wrappedMethod "validate_action")
    ∧ Tests.adder_action_call (.pylist [.int 1, .int 2, .int 3, .int 4, .int 5])
      = ([.argCheck (.pylist [.int 1, .int 2, .int 3, .int 4, .int 5]),
          .prerunCall (.pylist [.int 1, .int 2, .int 3, .int 4, .int 5]),
          .bodyCall (.pylist [.int 1, .int 2, .int 3, .int 4, .int 5]),
          .retCheck (.int 15)], .ok (.int 15))
    ∧ Tests.adder_action_call (.pylist [.str "1", .int 2, .int 3, .int 4, .int 5])
      = ([.argCheck (.pylist [.str "1", .int 2, .int 3, .int 4, .int 5])],
         .error (.typeCheckError "item of number_list is not an instance of int"))
    ∧ ∀ v, Event.bodyCall v ∉
        (Tests.adder_action_call (.pylist [.str "1", .int 2, .int 3, .int 4, .int 5])).1 := by
  refine ⟨rfl, rfl, rfl, ?_⟩
  intro v hv
  have ht : (Tests.adder_action_call (.pylist [.str "1", .int 2, .int 3, .int 4, .int 5])).1
      = [.argCheck (.pylist [.str "1", .int 2, .int 3, .int 4, .int 5])] := rfl
  rw [ht] at hv
  simp at hv

/-- C1 counterexample: on a call whose argument fails both the typeguard
argument check and the business-rule validator, the exception observed
by the caller is the type-check failure, not the prerun validator's, and
the validator is never even invoked — refuting the claimed
prerun-before-type ordering of `validated_decorated`. -/
theorem C1_counterexample :
    Tests.check_number_list (.str "x")
      = .error (.typeCheckError "number_list is not an instance of list")
    ∧ dualFailureCall.2 = .error (.typeCheckError "number_list is not an instance of list")
    ∧ dualFailureCall.2 ≠ .error (.valueError "business rule failed")
    ∧ ∀ a, Event.prerunCall a ∉ dualFailureCall.1 := by
  have ht1 : dualFailureCall.1 = [.argCheck (.str "x")] := rfl
  have ht2 : dualFailureCall.2
      = .error (.typeCheckError "number_list is not an instance of list") := rfl
  refine ⟨rfl, ht2, ?_, ?_⟩
  · rw [ht2]
    simp
  · intro a ha
    rw [ht1] at ha
    simp at ha

/-- C1 amended: for every method with both prerun and type validation,
the wrapper `validated_decorated` runs argument type-checking against
the declared annotations first, then the `validate_<name>` prerun
validator, then the original body, then return-type checking; each
failure short-circuits with its own exception, so on a call whose
arguments would fail both checks the type-check failure is observed,
never the prerun failure. -/
theorem C1_order_amended {α β : Type}
    (check_argument_types validation_method : α → Except PyErr Unit)
    (function : α → Except PyErr β) (check_return_type : β → Except PyErr Unit)
    (args : α) :
    (∀ e, check_argument_types args = .error e →
      validated_decorated check_argument_types validation_method function
        check_return_type args = ([.argCheck args], .error e))
    ∧ (∀ e, check_argument_types args = .ok () → validation_method args = .error e →
      validated_decorated check_argument_types validation_method function
        check_return_type args = ([.argCheck args, .prerunCall args], .error e))
    ∧ (∀ e r, check_argument_types args = .ok () → validation_method args = .ok () →
        function args = .ok r → check_return_type r = .error e →
      validated_decorated check_argument_types validation_method function
        check_return_type args
        = ([.argCheck args, .prerunCall args, .bodyCall args, .retCheck r], .error e))
    ∧ (∀ r, check_argument_types args = .ok () → validation_method args = .ok () →
        function args = .ok r → check_return_type r = .ok () →
      validated_decorated check_argument_types validation_method function
        check_return_type args
        = ([.argCheck args, .prerunCall args, .bodyCall args, .retCheck r], .ok r)) := by
  refine ⟨?_, ?_, ?_, ?_⟩
  · intro e h1
    simp [validated_decorated, h1]
  · intro e h1 h2
    simp [validated_decorated, h1, h2]
  · intro e r h1 h2 h3 h4
    simp [validated_decorated, h1, h2, h3, h4]
  · intro r h1 h2 h3 h4
    simp [validated_decorated, h1, h2, h3, h4]

/-- Witness for `C1_order_amended` at concrete inputs: a failing
argument check alone decides the outcome, and with a passing argument
check a failing validator decides it. -/
theorem C1_order_amended_witness :
    validated_decorated (fun (_ : Unit) => .error (.typeCheckError "bad argument"))
      (fun _ => .error (.valueError "bad rule")) (fun _ => Except.ok ())
      (fun _ => Except.ok ()) ()
      = ([.argCheck ()], .error (.typeCheckError "bad argument"))
    ∧ validated_decorated (fun (_ : Unit) => Except.ok ())
      (fun _ => .error (.valueError "bad rule")) (fun _ => Except.ok ())
      (fun _ => Except.ok ()) ()
      = ([.argCheck (), .prerunCall ()], .error (.valueError "bad rule")) :=
  ⟨(C1_order_amended _ _ _ _ ()).1 _ rfl,
   (C1_order_amended _ _ _ _ ()).2.1 _ rfl rfl⟩

/-- C4 counterexample: the claim says a second instantiation of the same
class does not re-run the structural self-check.  `AdderExample`
satisfies the structural requirements; its first instantiation succeeds
and returns the class unchanged, so a second instantiation evaluates the
same `instantiate Tests.AdderExample`, whose event trace again contains
the `selfCheck` step: the flag set by the first run lives on the
discarded first instance, not on the class. -/
theorem C4_counterexample :
    (instantiate Tests.AdderExample).2
      = .ok ({ selfValidatedSlot := some true }, Tests.AdderExample, [])
    ∧ (instantiate Tests.AdderExample).1 = [.selfCheck, .initBody]
    ∧ LifeEvent.selfCheck ∈ (instantiate Tests.AdderExample).1 := by
  refine ⟨rfl, rfl, ?_⟩
  rw [show (instantiate Tests.AdderExample).1 = [.selfCheck, .initBody] from rfl]
  simp

/-- C4 amended: the self-validated flag is instance-scoped.  For every
class satisfying the structural requirements, instantiation succeeds,
runs the self-check once, and sets the fresh instance's flag to true;
re-running the wrapped initializer on that same instance skips the
self-check and leaves the flag true (it is never reset).  A second
instantiation of the class, however, starts from a fresh instance whose
flag is false and therefore re-runs the self-check
(`C4_counterexample`). -/
theorem C4_flag_amended (c : PyClass) (warns : List String) (c2 : PyClass)
    (habs : c.abstractmethods = [])
    (hok : validate_self c = .ok (warns, c2)) :
    instantiate c
      = ([.selfCheck, .initBody], .ok ({ selfValidatedSlot := some true }, c2, warns))
    ∧ validate_init c2 { selfValidatedSlot := some true }
      = ([.initBody], .ok ({ selfValidatedSlot := some true }, c2, [])) := by
  constructor
  · simp [instantiate, habs, validate_init, Instance.self_validated, hok]
  · simp [validate_init, Instance.self_validated]

/-- Witness for `C4_flag_amended` at `AdderExample`. -/
theorem C4_flag_amended_witness :
    instantiate Tests.AdderExample
      = ([.selfCheck, .initBody],
         .ok ({ selfValidatedSlot := some true }, Tests.AdderExample, []))
    ∧ validate_init Tests.AdderExample { selfValidatedSlot := some true }
      = ([.initBody], .ok ({ selfValidatedSlot := some true }, Tests.AdderExample, [])) :=
  C4_flag_amended Tests.AdderExample [] Tests.AdderExample rfl rfl

/-- C7: the wrapper invokes the prerun validator only with exactly the
caller-supplied arguments; when the validator raises, the wrapper
returns that very exception untranslated and the original body is never
invoked (it does not appear in the trace).  Stated both for the
`validated_decorated` wrapper of `base.py` — where the validator runs
after the argument check has passed — and for the `prerun_validated`
decorator of `decorators_internal.py`. -/
theorem C7_validator_exact_args (α β : Type)
    (check_argument_types validation_method : α → Except PyErr Unit)
    (function : α → Except PyErr β) (check_return_type : β → Except PyErr Unit)
    (args : α) (e : PyErr) :
    (∀ a, Event.prerunCall a ∈ (validated_decorated check_argument_types validation_method
        function check_return_type args).1 → a = args)
    ∧ (check_argument_types args = .ok () → validation_method args = .error e →
        validated_decorated check_argument_types validation_method function
          check_return_type args = ([.argCheck args, .prerunCall args], .error e))
    ∧ (∀ a, Event.prerunCall a ∈ (prerun_validated validation_method function args).1 →
        a = args)
    ∧ (validation_method args = .error e →
        prerun_validated validation_method function args
          = ([.prerunCall args], .error e)) := by
  refine ⟨?_, ?_, ?_, ?_⟩
  · intro a ha
    cases hca : check_argument_types args with
    | error e1 => simp [validated_decorated, hca] at ha
    | ok u =>
      cases hv : validation_method args with
      | error e2 =>
        simp [validated_decorated, hca, hv] at ha
        exact ha
      | ok u2 =>
        cases hb : function args with
        | error e3 =>
          simp [validated_decorated, hca, hv, hb] at ha
          exact ha
        | ok r =>
          cases hr : check_return_type r with
          | error e4 =>
            simp [validated_decorated, hca, hv, hb, hr] at ha
            exact ha
          | ok u3 =>
            simp [validated_decorated, hca, hv, hb, hr] at ha
            exact ha
  · intro h1 h2
    simp [validated_decorated, h1, h2]
  · intro a ha
    cases hv : validation_method args with
    | error e2 =>
      simp [prerun_validated, hv] at ha
      exact ha
    | ok u =>
      cases hb : function args with
      | error e3 =>
        simp [prerun_validated, hv, hb] at ha
        exact ha
      | ok r =>
        simp [prerun_validated, hv, hb] at ha
        exact ha
  · intro h1
    simp [prerun_validated, h1]

/-- Witness for `C7_validator_exact_args`: a concrete rejecting
validator decides the call in both wrappers, with the body absent from
the trace and the exception returned unchanged. -/
theorem C7_validator_exact_args_witness :
    validated_decorated (fun (_ : Unit) => Except.ok ())
      (fun _ => .error (.valueError "rejected")) (fun _ => Except.ok ())
      (fun _ => Except.ok ()) ()
      = ([.argCheck (), .prerunCall ()], .error (.valueError "rejected"))
    ∧ prerun_validated (fun (_ : Unit) => .error (.valueError "rejected"))
        (fun _ => Except.ok ()) ()
      = ([.prerunCall ()], .error (.valueError "rejected")) :=
  ⟨(C7_validator_exact_args Unit Unit (fun _ => Except.ok ())
      (fun _ => .error (.valueError "rejected")) (fun _ => Except.ok ())
      (fun _ => Except.ok ()) () (.valueError "rejected")).2.1 rfl rfl,
   (C7_validator_exact_args Unit Unit (fun _ => Except.ok ())
      (fun _ => .error (.valueError "rejected")) (fun _ => Except.ok ())
      (fun _ => Except.ok ()) () (.valueError "rejected")).2.2.2 rfl⟩

/-- C5: for a class whose validated method `m` exists and is callable
but whose `validate_<m>` is missing, first construction fails with
`NotImplementedError` whose message names `validate_<m>`; when
`validate_<m>` exists but is a non-callable value, construction instead
fails with `TypeError` — the two cases are distinguishable. -/
theorem C5_validator_missing_vs_not_callable (c : PyClass) (m : String) (ma : MethodAttr)
    (habs : c.abstractmethods = [])
    (hreq : c.required_methods = [])
    (hval : c.validated_methods = [m])
    (hm : getattrOrNone c m = some (.method ma)) :
    (getattrOrNone c ("validate_" ++ m) = none →
      instantiate c = ([.selfCheck], .error (.notImplementedError
        ("The validate_" ++ m ++ " method must be defined for the " ++ m ++ " method."))))
    ∧ (getattrOrNone c ("validate_" ++ m) = some .plain →
      instantiate c = ([.selfCheck], .error (.typeError
        ("The validate_" ++ m ++ " attribute must be a callable.")))) := by
  constructor
  · intro hvn
    have hvs : validate_self c = .error (.notImplementedError
        ("The validate_" ++ m ++ " method must be defined for the " ++ m ++ " method.")) := by
      unfold validate_self
      rw [hreq, hval]
      simp [requiredLoop, validatedLoop, hm, hvn, Attr.callable]
    simp [instantiate, habs, validate_init, Instance.self_validated, hvs]
  · intro hvp
    have hvs : validate_self c = .error (.typeError
        ("The validate_" ++ m ++ " attribute must be a callable.")) := by
      unfold validate_self
      rw [hreq, hval]
      simp [requiredLoop, validatedLoop, hm, hvp, Attr.callable]
    simp [instantiate, habs, validate_init, Instance.self_validated, hvs]

/-- Witness for `C5_validator_missing_vs_not_callable` at the test
classes `MissingValidator` and `NonCallableValidator`. -/
theorem C5_validator_missing_vs_not_callable_witness :
    instantiate Tests.MissingValidator
      = ([.selfCheck], .error (.notImplementedError
          "The validate_action method must be defined for the action method."))
    ∧ instantiate Tests.NonCallableValidator
      = ([.selfCheck], .error (.typeError
          "The validate_action attribute must be a callable.")) :=
  ⟨(C5_validator_missing_vs_not_callable Tests.MissingValidator "action"
      (Base.validated {}) rfl rfl rfl rfl).1 rfl,
   (C5_validator_missing_vs_not_callable Tests.NonCallableValidator "action"
      (Base.validated {}) rfl rfl rfl rfl).2 rfl⟩

/-- Abstract-marking does not change member names. -/
theorem markRequiredAbstract_fst (required : List String) (members : List (String × Attr)) :
    (markRequiredAbstract required members).map Prod.fst = members.map Prod.fst := by
  induction members with
  | nil => rfl
  | cons hd tl ih =>
    simp only [markRequiredAbstract, List.map_cons] at ih ⊢
    rw [ih]
    congr 1
    split <;> rfl

/-- A parent abstract name with no same-named member of the new class
survives into the computed `__abstractmethods__`. -/
theorem computeAbstracts_mem_inherited (parent : PyClass)
    (members1 : List (String × Attr)) (name : String)
    (hp : name ∈ parent.abstractmethods)
    (habsent : ∀ pr ∈ members1, pr.1 ≠ name) :
    name ∈ computeAbstracts parent members1 := by
  have hfind : members1.find? (fun p => p.1 = name) = none := by
    rw [List.find?_eq_none]
    intro x hx
    simpa using habsent x hx
  have hnotown : name ∉ (members1.filter (fun p => p.2.isabstractmethod)).map Prod.fst := by
    intro hmem
    obtain ⟨pr, hpr, heq⟩ := List.mem_map.mp hmem
    exact habsent pr (List.mem_of_mem_filter hpr) heq
  unfold computeAbstracts
  refine List.mem_append.mpr (Or.inr ?_)
  refine List.mem_filter.mpr ⟨List.mem_filter.mpr ⟨hp, by simp [hfind]⟩, ?_⟩
  simpa using hnotown

/-- C8: a class inheriting an abstract (required) method that its own
body does not override keeps that method in its `__abstractmethods__`,
and its instantiation fails immediately with the underlying `ABCMeta`
abstract-class `TypeError`: the event trace is empty, so neither the
initializer body nor the structural self-check (nor any method body)
ever runs. -/
theorem C8_abstract_blocks_instantiation (p : PyClass) (ns : ClassNamespace) (name : String)
    (hp : name ∈ p.abstractmethods) (hov : ns.getMember name = none) :
    name ∈ (ValidatingBaseClassMeta.new p ns).abstractmethods
    ∧ instantiate (ValidatingBaseClassMeta.new p ns)
      = ([], .error (.typeError "Cant instantiate abstract class")) := by
  have hnm : ∀ pr ∈ ns.members, pr.1 ≠ name := by
    have hfind : ns.members.find? (fun pr => pr.1 = name) = none := by
      have := hov
      unfold ClassNamespace.getMember at this
      exact Option.map_eq_none'.mp this
    intro pr hpr
    have := List.find?_eq_none.mp hfind pr hpr
    simpa using this
  have h1 : name ∈ (ValidatingBaseClassMeta.new p ns).abstractmethods := by
    show name ∈ computeAbstracts p
      (markRequiredAbstract (collectMarked Attr.isabstractmethod ns.members
        (ns.required_methods_decl.getD [])).1 ns.members)
    apply computeAbstracts_mem_inherited p _ name hp
    intro pr hpr
    have hfst : pr.1 ∈ (markRequiredAbstract (collectMarked Attr.isabstractmethod ns.members
        (ns.required_methods_decl.getD [])).1 ns.members).map Prod.fst :=
      List.mem_map_of_mem Prod.fst hpr
    rw [markRequiredAbstract_fst] at hfst
    obtain ⟨pr0, hpr0, heq⟩ := List.mem_map.mp hfst
    rw [← heq]
    exact hnm pr0 hpr0
  refine ⟨h1, ?_⟩
  unfold instantiate
  rw [if_pos (List.ne_nil_of_mem h1)]

/-- Witness for `C8_abstract_blocks_instantiation`: `InvalidExample`
inherits the abstract `action` from `ActionExample` without overriding
it, and constructing it fails with the abstract-class `TypeError`. -/
theorem C8_abstract_blocks_instantiation_witness :
    "action" ∈ Tests.ActionExample.abstractmethods
    ∧ instantiate Tests.InvalidExample
      = ([], .error (.typeError "Cant instantiate abstract class")) := by
  have hmem : "action" ∈ Tests.ActionExample.abstractmethods := by
    rw [show Tests.ActionExample.abstractmethods = ["action"] from rfl]
    exact List.mem_singleton.mpr rfl
  exact ⟨hmem,
    (C8_abstract_blocks_instantiation Tests.ActionExample {} "action" hmem rfl).2⟩

/-- Names already collected stay collected through the member scan. -/
theorem foldl_collectMarkedStep_mem_mono (flagOf : Attr → Bool) :
    ∀ (l : List (String × Attr)) (acc : List String × Bool) (x : String),
      x ∈ acc.1 → x ∈ (l.foldl (collectMarkedStep flagOf) acc).1 := by
  intro l
  induction l with
  | nil => intro acc x hx; exact hx
  | cons hd tl ih =>
    intro acc x hx
    apply ih
    unfold collectMarkedStep
    split
    · exact List.mem_append.mpr (Or.inl hx)
    · exact hx

/-- The changed flag never reverts to false during the member scan. -/
theorem foldl_collectMarkedStep_changed_mono (flagOf : Attr → Bool) :
    ∀ (l : List (String × Attr)) (acc : List String × Bool),
      acc.2 = true → (l.foldl (collectMarkedStep flagOf) acc).2 = true := by
  intro l
  induction l with
  | nil => intro acc h; exact h
  | cons hd tl ih =>
    intro acc h
    apply ih
    unfold collectMarkedStep
    split
    · rfl
    · exact h

/-- Every flagged member name ends up in the scanned list. -/
theorem foldl_collectMarkedStep_mem_of_flag (flagOf : Attr → Bool) :
    ∀ (l : List (String × Attr)) (acc : List String × Bool) (name : String) (attr : Attr),
      (name, attr) ∈ l → flagOf attr = true →
      name ∈ (l.foldl (collectMarkedStep flagOf) acc).1 := by
  intro l
  induction l with
  | nil => intro _ _ _ h _; cases h
  | cons hd tl ih =>
    intro acc name attr hmem hflag
    rcases List.mem_cons.mp hmem with heq | htl
    · show name ∈ (tl.foldl (collectMarkedStep flagOf) (collectMarkedStep flagOf acc hd)).1
      apply foldl_collectMarkedStep_mem_mono
      rw [← heq]
      by_cases hacc : name ∈ acc.1
      · unfold collectMarkedStep
        rw [if_neg (fun hcon => hcon.2 hacc)]
        exact hacc
      · unfold collectMarkedStep
        rw [if_pos ⟨hflag, hacc⟩]
        simp
    · exact ih (collectMarkedStep flagOf acc hd) name attr htl hflag

/-- A flagged member either sets the changed flag or was already in the
starting list. -/
theorem foldl_collectMarkedStep_changed_of_flag (flagOf : Attr → Bool) :
    ∀ (l : List (String × Attr)) (acc : List String × Bool) (name : String) (attr : Attr),
      (name, attr) ∈ l → flagOf attr = true →
      (l.foldl (collectMarkedStep flagOf) acc).2 = true ∨ name ∈ acc.1 := by
  intro l
  induction l with
  | nil => intro _ _ _ h; cases h
  | cons hd tl ih =>
    intro acc name attr hmem hflag
    by_cases hc : flagOf hd.2 = true ∧ hd.1 ∉ acc.1
    · left
      show (tl.foldl (collectMarkedStep flagOf) (collectMarkedStep flagOf acc hd)).2 = true
      apply foldl_collectMarkedStep_changed_mono
      unfold collectMarkedStep
      rw [if_pos hc]
    · rcases List.mem_cons.mp hmem with heq | htl
      · right
        rw [not_and_or] at hc
        rcases hc with hc | hc
        · exact absurd (by rw [← heq] at hc ⊢; exact hflag) hc
        · rw [not_not] at hc
          have : hd.1 = name := by rw [← heq]
          rw [← this]
          exact hc
      · rcases ih (collectMarkedStep flagOf acc hd) name attr htl hflag with h | h
        · exact Or.inl h
        · right
          unfold collectMarkedStep at h
          rw [if_neg hc] at h
          exact h

/-- If no member carries the flag, the scan leaves the list and the
changed flag untouched. -/
theorem foldl_collectMarkedStep_no_flag (flagOf : Attr → Bool) :
    ∀ (l : List (String × Attr)) (acc : List String × Bool),
      (∀ pr ∈ l, flagOf pr.2 = false) →
      l.foldl (collectMarkedStep flagOf) acc = acc := by
  intro l
  induction l with
  | nil => intro acc _; rfl
  | cons hd tl ih =>
    intro acc hall
    have hstep : collectMarkedStep flagOf acc hd = acc := by
      unfold collectMarkedStep
      rw [if_neg]
      rintro ⟨h1, _⟩
      rw [hall hd (List.mem_cons_self hd tl)] at h1
      cases h1
    calc (hd :: tl).foldl (collectMarkedStep flagOf) acc
        = tl.foldl (collectMarkedStep flagOf) (collectMarkedStep flagOf acc hd) := rfl
      _ = tl.foldl (collectMarkedStep flagOf) acc := by rw [hstep]
      _ = acc := ih acc (fun pr hpr => hall pr (List.mem_cons_of_mem hd hpr))

/-- The effective `validated_methods` of a freshly built class: the
scanned own list when the class body declared the list or the scan
changed it, the parent lookup otherwise. -/
theorem new_validated_methods (p : PyClass) (ns : ClassNamespace) :
    (ValidatingBaseClassMeta.new p ns).validated_methods
      = (if (ns.validated_methods_decl.isSome
              || (collectMarked Attr.isruntimevalidated ns.members
                   (ns.validated_methods_decl.getD [])).2) = true
         then (collectMarked Attr.isruntimevalidated ns.members
                 (ns.validated_methods_decl.getD [])).1
         else p.validated_methods) := by
  unfold ValidatingBaseClassMeta.new
  by_cases h : (ns.validated_methods_decl.isSome
      || (collectMarked Attr.isruntimevalidated ns.members
           (ns.validated_methods_decl.getD [])).2) = true
  · simp [PyClass.validated_methods, h]
  · simp [PyClass.validated_methods, h]

/-- C3 amended: the metaclass computes a class's validated-method set
from the class body alone — the declared list (default empty) extended
with the newly decorated member names.  Ancestors' sets are never
unioned in: when the class body neither declares the list nor decorates
a member, the set is inherited from the nearest ancestor by ordinary
attribute lookup; as soon as the class decorates a member of its own,
its set contains those members but is computed independently of every
ancestor, shadowing — not merging — the ancestors' sets. -/
theorem C3_replace_not_union (p : PyClass) (ns : ClassNamespace) :
    (ns.validated_methods_decl = none →
      (∀ pr ∈ ns.members, pr.2.isruntimevalidated = false) →
      (ValidatingBaseClassMeta.new p ns).validated_methods = p.validated_methods)
    ∧ (∀ (name : String) (attr : Attr), (name, attr) ∈ ns.members →
        attr.isruntimevalidated = true →
        name ∈ (ValidatingBaseClassMeta.new p ns).validated_methods)
    ∧ (∀ (q : PyClass) (name : String) (attr : Attr), (name, attr) ∈ ns.members →
        attr.isruntimevalidated = true →
        (ValidatingBaseClassMeta.new p ns).validated_methods
          = (ValidatingBaseClassMeta.new q ns).validated_methods) := by
  have hcond : ∀ (name : String) (attr : Attr), (name, attr) ∈ ns.members →
      attr.isruntimevalidated = true →
      (ns.validated_methods_decl.isSome
        || (collectMarked Attr.isruntimevalidated ns.members
             (ns.validated_methods_decl.getD [])).2) = true := by
    intro name attr hmem hflag
    rcases foldl_collectMarkedStep_changed_of_flag Attr.isruntimevalidated ns.members
        (ns.validated_methods_decl.getD [], false) name attr hmem hflag with h | h
    · rw [Bool.or_eq_true]
      right
      exact h
    · cases hdecl : ns.validated_methods_decl with
      | none =>
        rw [hdecl] at h
        cases h
      | some l => simp [hdecl]
  refine ⟨?_, ?_, ?_⟩
  · intro hdecl hnone
    have hscan : collectMarked Attr.isruntimevalidated ns.members
        (ns.validated_methods_decl.getD []) = (ns.validated_methods_decl.getD [], false) :=
      foldl_collectMarkedStep_no_flag Attr.isruntimevalidated ns.members
        (ns.validated_methods_decl.getD [], false) hnone
    rw [new_validated_methods, hscan, hdecl]
    simp
  · intro name attr hmem hflag
    rw [new_validated_methods, if_pos (hcond name attr hmem hflag)]
    exact foldl_collectMarkedStep_mem_of_flag Attr.isruntimevalidated ns.members
      (ns.validated_methods_decl.getD [], false) name attr hmem hflag
  · intro q name attr hmem hflag
    rw [new_validated_methods p ns, new_validated_methods q ns,
      if_pos (hcond name attr hmem hflag), if_pos (hcond name attr hmem hflag)]

/-- C3 counterexample: `FooBase` decorates `foo`, its subclass `BarSub`
decorates the additional method `bar`; the claim says `BarSub`'s
validated-method set is the union, containing both.  In fact `BarSub`'s
set is exactly `["bar"]`: the ancestor-decorated `foo` is dropped from
validation in the subclass. -/
theorem C3_counterexample :
    FooBase.validated_methods = ["foo"]
    ∧ BarSub.validated_methods = ["bar"]
    ∧ "foo" ∉ BarSub.validated_methods := by
  refine ⟨rfl, rfl, ?_⟩
  rw [show BarSub.validated_methods = ["bar"] from rfl]
  decide

/-- Witness for `C3_replace_not_union`: a subclass with an empty body
inherits `FooBase`'s set; `BarSub`'s own decoration puts `bar` in its
set, and that set is computed independently of whether the ancestor is
`FooBase` or the root class. -/
theorem C3_replace_not_union_witness :
    (ValidatingBaseClassMeta.new FooBase {}).validated_methods = FooBase.validated_methods
    ∧ "bar" ∈ BarSub.validated_methods
    ∧ BarSub.validated_methods
      = (ValidatingBaseClassMeta.new PyClass.validatingBaseClass
          { members := [("bar", .method (Base.validated {})),
                        ("validate_bar", .method {})] }).validated_methods := by
  refine ⟨(C3_replace_not_union FooBase {}).1 rfl ?_, ?_, ?_⟩
  · intro pr hpr
    cases hpr
  · exact (C3_replace_not_union FooBase
      { members := [("bar", .method (Base.validated {})),
                    ("validate_bar", .method {})] }).2.1
      "bar" (.method (Base.validated {})) (List.mem_cons_self _ _) rfl
  · exact (C3_replace_not_union FooBase
      { members := [("bar", .method (Base.validated {})),
                    ("validate_bar", .method {})] }).2.2
      PyClass.validatingBaseClass "bar" (.method (Base.validated {}))
      (List.mem_cons_self _ _) rfl

/-- The element a list iterator reads at the position right after a
prefix. -/
theorem get_append_len {γ : Type} (pre : List γ) (a : γ) (t : List γ)
    (h : pre.length < (pre ++ a :: t).length) :
    (pre ++ a :: t).get ⟨pre.length, h⟩ = a := by
  induction pre with
  | nil => rfl
  | cons x xs ih => exact ih (by simp)

/-- The validated-methods loop over a live list in which every remaining
name is missing: each visited name is warned about and removed in
place, and the removal shifts the iteration so that the element right
after it is stepped over.  Hence the loop ends without error, keeping
exactly the odd-position names and warning about exactly the
even-position ones. -/
theorem validatedLoop_all_missing (c : PyClass) :
    ∀ (fuel : Nat) (pre suf warns : List String),
      suf.length ≤ fuel → (pre ++ suf).Nodup →
      (∀ n ∈ suf, getattrOrNone c n = none) →
      validatedLoop c fuel (pre ++ suf) pre.length warns
        = .ok (pre ++ oddIdxElems suf, warns ++ (evenIdxElems suf).map warnMsg) := by
  intro fuel
  induction fuel with
  | zero =>
    intro pre suf warns hlen hnd hmiss
    have hsuf : suf = [] := List.length_eq_zero.mp (Nat.le_zero.mp hlen)
    subst hsuf
    simp [validatedLoop, oddIdxElems, evenIdxElems]
  | succ fuel ih =>
    intro pre suf warns hlen hnd hmiss
    cases suf with
    | nil =>
      simp [validatedLoop, oddIdxElems, evenIdxElems]
    | cons a t =>
      have hi : pre.length < (pre ++ a :: t).length := by simp
      have hget : (pre ++ a :: t).get ⟨pre.length, hi⟩ = a := get_append_len pre a t hi
      have hanp : a ∉ pre := by
        have hd := List.disjoint_of_nodup_append hnd
        intro hin
        exact hd hin (List.mem_cons_self a t)
      have herase : (pre ++ a :: t).erase a = pre ++ t := by
        rw [List.erase_append_right _ hanp, List.erase_cons_head]
      have hmissa : getattrOrNone c a = none := hmiss a (List.mem_cons_self a t)
      simp only [validatedLoop, dif_pos hi, hget, hmissa]
      rw [herase]
      cases t with
      | nil =>
        cases fuel with
        | zero => simp [validatedLoop, oddIdxElems, evenIdxElems]
        | succ fuel2 =>
          have hni : ¬ (pre.length + 1 < (pre ++ ([] : List String)).length) := by
            simp only [List.append_nil]
            omega
          simp [validatedLoop, hni, oddIdxElems, evenIdxElems]
      | cons b t2 =>
        have hnd2 : ((pre ++ [b]) ++ t2).Nodup := by
          have hsub : List.Sublist (pre ++ b :: t2) (pre ++ a :: b :: t2) :=
            List.Sublist.append_left (List.sublist_cons_self a (b :: t2)) pre
          have hnd3 := List.Nodup.sublist hsub hnd
          simpa using hnd3
        have hmiss2 : ∀ n ∈ t2, getattrOrNone c n = none := fun n hn =>
          hmiss n (List.mem_cons_of_mem a (List.mem_cons_of_mem b hn))
        have hlen2 : t2.length ≤ fuel := by
          simp only [List.length_cons] at hlen
          omega
        have hcast : pre ++ b :: t2 = (pre ++ [b]) ++ t2 := by simp
        have hilen : pre.length + 1 = (pre ++ [b]).length := by simp
        rw [hcast, hilen, ih (pre ++ [b]) t2 (warns ++ [warnMsg a]) hlen2 hnd2 hmiss2]
        simp [oddIdxElems, evenIdxElems]

/-- Rewriting the nearest owned `validated_methods` slot makes the new
list the one every lookup sees, except on a chain that owns no slot at
all (then the root's empty list is what both lookups see). -/
theorem setValidatedList_validated_methods (c : PyClass) (l : List String) :
    (c.setValidatedList l).validated_methods = l
    ∨ ((c.setValidatedList l).validated_methods = [] ∧ c.validated_methods = []) := by
  induction c with
  | validatingBaseClass => right; exact ⟨rfl, rfl⟩
  | mk p vs rs mem ab ih =>
    cases vs with
    | some v => left; rfl
    | none =>
      rcases ih with h | ⟨h1, h2⟩
      · left
        simpa [PyClass.setValidatedList, PyClass.validated_methods] using h
      · right
        constructor
        · simpa [PyClass.setValidatedList, PyClass.validated_methods] using h1
        · simpa [PyClass.validated_methods] using h2

/-- C10 amended: when names in the validated-method list have no
corresponding attribute (and all other checks pass — here every listed
name is missing and the names are distinct, as a class body guarantees),
the structural self-check does not raise: it completes successfully,
but because each removal happens on the list being iterated, only the
even-position names are warned about and removed in place from the
class-level list; the entry immediately following each removed one is
stepped over, staying in the list unwarned.  The pruned list is what
the updated class — and any subclass without its own slot, sharing that
list — subsequently exposes for validation. -/
theorem C10_missing_amended (c : PyClass) (names : List String)
    (hreq : c.required_methods = [])
    (hval : c.validated_methods = names)
    (hnd : names.Nodup)
    (hmiss : ∀ n ∈ names, getattrOrNone c n = none) :
    validate_self c
      = .ok ((evenIdxElems names).map warnMsg, c.setValidatedList (oddIdxElems names))
    ∧ (c.setValidatedList (oddIdxElems names)).validated_methods = oddIdxElems names
    ∧ ∀ (rslot : Option (List String)) (mem : List (String × Attr)) (ab : List String),
        (PyClass.mk (c.setValidatedList (oddIdxElems names)) none rslot mem ab).validated_methods
          = oddIdxElems names := by
  have hloop : validatedLoop c names.length names 0 []
      = .ok (oddIdxElems names, (evenIdxElems names).map warnMsg) := by
    have hall := validatedLoop_all_missing c names.length [] names []
      (le_refl _) (by simpa using hnd) hmiss
    simpa using hall
  have h2 : (c.setValidatedList (oddIdxElems names)).validated_methods = oddIdxElems names := by
    rcases setValidatedList_validated_methods c (oddIdxElems names) with h | ⟨ha, hb⟩
    · exact h
    · rw [hval] at hb
      subst hb
      simpa [oddIdxElems] using ha
  refine ⟨?_, h2, ?_⟩
  · unfold validate_self
    rw [hreq, hval]
    simp [requiredLoop, hloop]
  · intro rslot mem ab
    exact h2

/-- Witness for `C10_missing_amended` at `TwoMissing`. -/
theorem C10_missing_amended_witness :
    validate_self TwoMissing
      = .ok ((evenIdxElems ["a", "b"]).map warnMsg,
             TwoMissing.setValidatedList (oddIdxElems ["a", "b"]))
    ∧ (TwoMissing.setValidatedList (oddIdxElems ["a", "b"])).validated_methods
      = oddIdxElems ["a", "b"] := by
  have hmiss : ∀ n ∈ (["a", "b"] : List String), getattrOrNone TwoMissing n = none := by
    intro n hn
    cases hn with
    | head => rfl
    | tail _ h2 =>
      cases h2 with
      | head => rfl
      | tail _ h3 => cases h3
  exact ⟨(C10_missing_amended TwoMissing ["a", "b"] rfl rfl (by decide) hmiss).1,
         (C10_missing_amended TwoMissing ["a", "b"] rfl rfl (by decide) hmiss).2.1⟩

/-- C10 counterexample: in `TwoMissing` both listed names `a` and `b`
lack attributes.  The claim says every such name is warned about and
removed.  In fact the completed, non-raising self-check warns only
about `a` and leaves `b` — equally attribute-less — in the class-level
list: the in-place removal of `a` shifted the iteration past `b`. -/
theorem C10_counterexample :
    "b" ∈ TwoMissing.validated_methods
    ∧ getattrOrNone TwoMissing "b" = none
    ∧ validate_self TwoMissing
      = .ok ([warnMsg "a"], PyClass.mk .validatingBaseClass (some ["b"]) none [] [])
    ∧ "b" ∈ (PyClass.mk .validatingBaseClass (some ["b"]) none [] []).validated_methods := by
  refine ⟨?_, rfl, rfl, ?_⟩
  · decide
  · decide

end ValidatingBase
